import Mathlib

/-!
Verification development for the simple-agent repository.

Shallow embedding of the core of the program: the message/session data
model (src/session/message.rs, src/session/session.rs), the tool
subsystem (src/tool/mod.rs, src/tool/registry.rs, src/tool/executor.rs),
the agent loop in batch and streaming mode (src/agent/agent_loop.rs),
and the MCP JSON-RPC client (src/mcp/client.rs).

Effects are made explicit: UUID generation and clock reads become a
natural-number supply threaded through the loops, the LLM adapter (an
external collaborator, consumed only through complete/stream) becomes a
function argument, serde_json parsing of raw strings becomes a
function argument, and process/pipe I/O becomes explicit lists of read
and write outcomes.
-/

namespace SimpleAgent

/-- JSON values (serde_json::Value). Numbers are modelled as integers;
the claims under study never inspect numeric JSON payloads beyond the
JSON-RPC id field, which the code produces from a u64 counter. -/
inductive Json where
  | null
  | bool (b : Bool)
  | num (n : Int)
  | str (s : String)
  | arr (elems : List Json)
  | obj (fields : List (String × Json))

/-- MessageRole from src/session/message.rs. -/
inductive MessageRole where
  | user
  | assistant
  | tool
deriving DecidableEq, Repr

/-- MessageContent from src/session/message.rs: a tagged union of plain
text, a tool call request, and a tool execution result. -/
inductive MessageContent where
  | text (text : String)
  | toolCall (id : String) (name : String) (arguments : Json)
  | toolResult (tool_call_id : String) (result : String) ( is_error : Option Bool)

/-- Message from src/session/message.rs. The id is generated with
Uuid::new_v4 and the timestamp with Utc::now in the source; both are
ambient effects, so the constructors below take them as arguments
(the loops thread a natural-number supply for them). -/
structure Message where
  id : String
  role : MessageRole
  content : List MessageContent
  created_at : Nat

/-- Message::new_user: a User message with a single Text block. -/
def Message.new_user (id : String) (now : Nat) (text : String) : Message :=
  { id := id
  , role := MessageRole.user
  , content := [MessageContent.text text]
  , created_at := now }

/-- Message::new_assistant. -/
def Message.new_assistant (id : String) (now : Nat)
    (content : List MessageContent) : Message :=
  { id := id
  , role := MessageRole.assistant
  , content := content
  , created_at := now }

/-- Message::new_tool_result: a Tool-role message carrying the results. -/
def Message.new_tool_result (id : String) (now : Nat)
    (results : List MessageContent) : Message :=
  { id := id
  , role := MessageRole.tool
  , content := results
  , created_at := now }

/-- SessionStatus from src/session/session.rs. -/
inductive SessionStatus where
  | idle
  | running
  | completed
  | error
deriving DecidableEq, Repr

/-- ModelConfig from src/session/session.rs. The optional f32 sampling
temperature and the free-form extra map are never read by the agent
loop; floating-point data is outside the embedding, so those two fields
are not modelled. -/
structure ModelConfig where
  name : String
  max_tokens : Nat
deriving DecidableEq, Repr

/-- ModelConfig::default. -/
def ModelConfig.default_config : ModelConfig :=
  { name := "gpt-4o", max_tokens := 4096 }

/-- Session from src/session/session.rs. -/
structure Session where
  id : String
  messages : List Message
  system_prompt : String
  model : ModelConfig
  status : SessionStatus

/-- Session::new (the id is Uuid-generated in the source, taken as an
argument here). -/
def Session.new_session (id : String) (model : ModelConfig)
    (system_prompt : String) : Session :=
  { id := id
  , messages := []
  , system_prompt := system_prompt
  , model := model
  , status := SessionStatus.idle }

/-- Session::add_message: push one message at the end of the log. -/
def Session.add_message (s : Session) (message : Message) : Session :=
  { s with messages := s.messages ++ [message] }

/-- ToolError from src/tool/mod.rs. -/
inductive ToolError where
  | invalidArguments (reason : String)
  | executionFailed (reason : String)
  | notFound (name : String)
deriving DecidableEq, Repr

/-- Display rendering of ToolError (the thiserror format strings). -/
def ToolError.render : ToolError → String
  | ToolError.invalidArguments reason => "Invalid arguments: " ++ reason
  | ToolError.executionFailed reason => "Execution failed: " ++ reason
  | ToolError.notFound name => "Tool not found: " ++ name

/-- ToolResult from src/tool/mod.rs (the executor-facing result type,
distinct from the MessageContent.toolResult content block). -/
structure ToolResult where
  output : String
  metadata : Option (List (String × Json))
  error : Option String

/-- ToolDefinition from src/tool/mod.rs. -/
structure ToolDefinition where
  name : String
  description : String
  input_schema : Json

/-- The Tool trait from src/tool/mod.rs: name, description, parameter
schema, and an execute function. A trait object becomes a structure of
its methods; execute is modelled as a pure function from arguments to a
tool-level result. -/
structure Tool where
  name : String
  description : String
  parameters_schema : Json
  execute : Json → Except ToolError ToolResult

/-- Tool::to_definition. -/
def Tool.to_definition (t : Tool) : ToolDefinition :=
  { name := t.name
  , description := t.description
  , input_schema := t.parameters_schema }

/-- ToolRegistry from src/tool/registry.rs: a name-keyed map of tools,
modelled as an association list (HashMap iteration order is immaterial
to the claims under study). -/
structure ToolRegistry where
  tools : List (String × Tool)

/-- ToolRegistry::get. -/
def ToolRegistry.get (reg : ToolRegistry) (name : String) : Option Tool :=
  (reg.tools.find? (fun p => p.1 == name)).map (fun p => p.2)

/-- ToolRegistry::to_tool_definitions. -/
def ToolRegistry.to_tool_definitions (reg : ToolRegistry) : List ToolDefinition :=
  reg.tools.map (fun p => p.2.to_definition)

/-- ExecutionContext from src/tool/executor.rs. -/
structure ExecutionContext where
  session_id : String
  message_id : String
deriving DecidableEq, Repr

namespace ToolExecutor

/-- ToolExecutor::execute from src/tool/executor.rs: resolve the call by
name against the registry and invoke the tool, converting every failure
into an error-flagged toolResult content block. The ctx argument is
unused in the source (bound as _ctx there). -/
def execute (reg : ToolRegistry) (call : MessageContent)
    (_ctx : ExecutionContext) : MessageContent :=
  match call with
  | MessageContent.toolCall id name arguments =>
    match reg.get name with
    | none =>
      MessageContent.toolResult id ("Tool not found: " ++ name) (some true)
    | some tool =>
      match tool.execute arguments with
      | Except.ok result =>
        MessageContent.toolResult id result.output
          (result.error.map (fun _ => true))
      | Except.error err =>
        MessageContent.toolResult id err.render (some true)
  | _ => MessageContent.toolResult "" "Invalid tool call content" (some true)

/-- ToolExecutor::execute_all from src/tool/executor.rs: a sequential
for-loop pushing one result per call, i.e. a map. -/
def execute_all (reg : ToolRegistry) (calls : List MessageContent)
    (ctx : ExecutionContext) : List MessageContent :=
  calls.map (fun call => execute reg call ctx)

end ToolExecutor

/-- Discriminator used by the agent loop: matches!(c, MessageContent::ToolCall \x7b .. \x7d). -/
def MessageContent.isToolCall : MessageContent → Bool
  | MessageContent.toolCall _ _ _ => true
  | _ => false

/-- Block id of a content block: the call id of a toolCall, the
tool_call_id of a toolResult, empty for text. Used to state the
call/result correlation properties. -/
def MessageContent.block_id : MessageContent → String
  | MessageContent.text _ => ""
  | MessageContent.toolCall id _ _ => id
  | MessageContent.toolResult id _ _ => id

/-- FinishReason from src/llm/client.rs. -/
inductive FinishReason where
  | stop
  | toolCalls
  | maxTokens
  | error
deriving DecidableEq, Repr

/-- Usage from src/llm/client.rs. -/
structure Usage where
  input_tokens : Nat
  output_tokens : Nat
deriving DecidableEq, Repr

/-- LLMError from src/llm/client.rs (each variant carries its message;
reqwest errors are carried as their display strings). -/
inductive LLMError where
  | apiError (msg : String)
  | networkError (msg : String)
  | invalidResponse (msg : String)
  | authError (msg : String)
  | rateLimitError (msg : String)
deriving DecidableEq, Repr

/-- Display rendering of LLMError (the thiserror format strings),
as produced by e.to_string() in the agent loop. -/
def LLMError.render : LLMError → String
  | LLMError.apiError msg => "API error: " ++ msg
  | LLMError.networkError msg => "Network error: " ++ msg
  | LLMError.invalidResponse msg => "Invalid response: " ++ msg
  | LLMError.authError msg => "Authentication failed: " ++ msg
  | LLMError.rateLimitError msg => "Rate limit exceeded: " ++ msg

/-- LLMInput from src/llm/client.rs (the optional f32 temperature is
passed through untouched by the loop and is not modelled). -/
structure LLMInput where
  model : String
  messages : List Message
  system_prompt : String
  tools : List ToolDefinition
  max_tokens : Nat

/-- LLMOutput from src/llm/client.rs. -/
structure LLMOutput where
  content : List MessageContent
  finish_reason : FinishReason
  usage : Usage

/-- LLMEvent from src/llm/client.rs. -/
inductive LLMEvent where
  | textDelta (text : String)
  | toolCallStart (id : String) (name : String)
  | toolCallDelta (id : String) (arguments : String)
  | toolCallEnd (id : String)
  | finish (reason : FinishReason) (usage : Usage)
  | error (error : String)

/-- AgentEvent from src/agent/agent_loop.rs. The toolCall variant
carries structured args in the source; the stream loop never emits it,
so its argument is kept as Json. -/
inductive AgentEvent where
  | messageStart (role : MessageRole)
  | text (text : String)
  | toolCall (name : String) (args : Json)
  | toolResult (name : String) (result : String)
  | messageEnd (finish_reason : FinishReason)
  | error (error : String)

/-- AgentError from src/agent/agent_loop.rs. -/
inductive AgentError where
  | llmError (e : LLMError)
  | maxStepsExceeded
  | toolError (e : ToolError)

/-- AgentConfig from src/agent/agent_loop.rs (temperature, an optional
f32 forwarded verbatim, is not modelled). -/
structure AgentConfig where
  model : String
  system_prompt : String
  max_steps : Nat
  max_tokens : Nat

/-- The blocking side of the LLMClient trait: complete(input). The
adapter is an external collaborator, so it is a parameter of the loop. -/
def LLMAdapter : Type :=
  LLMInput → Except LLMError LLMOutput

/-- The streaming side of the LLMClient trait: stream(input) either
fails to open or yields a finite sequence of event results. -/
def LLMStreamAdapter : Type :=
  LLMInput → Except LLMError (List (Except LLMError LLMEvent))

/-- The LLMInput built at the top of each loop iteration in
Agent::run_loop and Agent::stream (note max_tokens comes from the
session's model config, not from the agent config). -/
def build_llm_input (config : AgentConfig) (reg : ToolRegistry)
    (s : Session) : LLMInput :=
  { model := config.model
  , messages := s.messages
  , system_prompt := config.system_prompt
  , tools := reg.to_tool_definitions
  , max_tokens := s.model.max_tokens }

/-- Agent::run_loop from src/agent/agent_loop.rs, batch mode. The
while-loop with its step counter becomes fuel-based recursion (fuel =
max_steps - step). The fresh counter supplies message ids/timestamps.
Returns the final session, the next fresh value, and the error if the
LLM call failed (in the source the error propagates with ? while the
session keeps the messages appended so far). -/
def run_loop (llm : LLMAdapter) (reg : ToolRegistry) (config : AgentConfig) :
    Nat → Session → Nat → Session × Nat × Option AgentError
  | 0, s, fresh => (s, fresh, none)
  | steps_left + 1, s, fresh =>
    match llm (build_llm_input config reg s) with
    | Except.error e => (s, fresh, some (AgentError.llmError e))
    | Except.ok response =>
      let assistant_message :=
        Message.new_assistant (toString fresh) fresh response.content
      let message_id := assistant_message.id
      let s := s.add_message assistant_message
      let tool_calls := response.content.filter MessageContent.isToolCall
      if tool_calls.isEmpty then
        (s, fresh + 1, none)
      else
        let ctx : ExecutionContext :=
          { session_id := s.id, message_id := message_id }
        let results := ToolExecutor.execute_all reg tool_calls ctx
        let tool_message :=
          Message.new_tool_result (toString (fresh + 1)) (fresh + 1) results
        let s := s.add_message tool_message
        run_loop llm reg config steps_left s (fresh + 2)

/-- Agent::run from src/agent/agent_loop.rs: append the user message,
set status Running, run the loop, and on success set status Completed
and return the accumulated log. On a loop error the ? operator
propagates it immediately: the status assignment to Completed is
skipped and no other status is written. -/
def Agent.run (llm : LLMAdapter) (reg : ToolRegistry) (config : AgentConfig)
    (s : Session) (fresh : Nat) (user_input : String) :
    Session × Except AgentError (List Message) :=
  let s := s.add_message (Message.new_user (toString fresh) fresh user_input)
  let s := { s with status := SessionStatus.running }
  match run_loop llm reg config config.max_steps s (fresh + 1) with
  | (s', _, none) =>
    ({ s' with status := SessionStatus.completed }, Except.ok s'.messages)
  | (s', _, some e) => (s', Except.error e)

/-- State produced by consuming one turn's LLM event stream in
Agent::stream: the events yielded to the caller, the content blocks
still in the buffer, the collected completed tool calls, and whether
the turn aborted on an adapter error (yield Error then return). -/
structure StreamTurn where
  events : List AgentEvent
  content : List MessageContent
  tool_calls : List MessageContent
  aborted : Bool

/-- The ToolCallDelta arm of Agent::stream: parse the incoming argument
fragment as a complete JSON value (empty object on parse failure) and
overwrite the arguments of the last content block when it is a tool
call, regardless of the delta's id. -/
def apply_tool_call_delta (parse : String → Option Json)
    (content : List MessageContent) (arguments : String) :
    List MessageContent :=
  match content.getLast? with
  | some (MessageContent.toolCall id name _) =>
    content.dropLast ++
      [MessageContent.toolCall id name ((parse arguments).getD (Json.obj []))]
  | _ => content

/-- The ToolCallEnd arm of Agent::stream: find the position of the tool
call with the given id in the content buffer, remove it there, and push
it onto the collected tool calls. -/
def collect_tool_call (content tool_calls : List MessageContent)
    (id : String) : List MessageContent × List MessageContent :=
  match content.findIdx? (fun c =>
    match c with
    | MessageContent.toolCall tool_id _ _ => tool_id == id
    | _ => false) with
  | some pos =>
    match content.get? pos with
    | some call => (content.eraseIdx pos, tool_calls ++ [call])
    | none => (content, tool_calls)
  | none => (content, tool_calls)

/-- The inner while-let of Agent::stream consuming one turn's LLM event
stream. TextDelta yields a Text event and appends a Text block;
ToolCallStart appends an open ToolCall block with empty-object
arguments (yielding nothing); ToolCallDelta rewrites the last block's
arguments; ToolCallEnd moves the matching block from the content buffer
to the collected tool calls; Finish yields MessageEnd and keeps
consuming; an Ok(Error) event falls into the catch-all arm and is
ignored; a stream-level Err yields a terminal Error event and aborts
the turn. -/
def process_stream_events (parse : String → Option Json) :
    List (Except LLMError LLMEvent) → List MessageContent →
    List MessageContent → StreamTurn
  | [], content, tool_calls =>
    { events := [], content := content, tool_calls := tool_calls
    , aborted := false }
  | Except.ok (LLMEvent.textDelta t) :: rest, content, tool_calls =>
    let r := process_stream_events parse rest
      (content ++ [MessageContent.text t]) tool_calls
    { r with events := AgentEvent.text t :: r.events }
  | Except.ok (LLMEvent.toolCallStart id name) :: rest, content, tool_calls =>
    process_stream_events parse rest
      (content ++ [MessageContent.toolCall id name (Json.obj [])]) tool_calls
  | Except.ok (LLMEvent.toolCallDelta _ arguments) :: rest, content, tool_calls =>
    process_stream_events parse rest
      (apply_tool_call_delta parse content arguments) tool_calls
  | Except.ok (LLMEvent.toolCallEnd id) :: rest, content, tool_calls =>
    let p := collect_tool_call content tool_calls id
    process_stream_events parse rest p.1 p.2
  | Except.ok (LLMEvent.finish reason _) :: rest, content, tool_calls =>
    let r := process_stream_events parse rest content tool_calls
    { r with events := AgentEvent.messageEnd reason :: r.events }
  | Except.ok (LLMEvent.error _) :: rest, content, tool_calls =>
    process_stream_events parse rest content tool_calls
  | Except.error e :: _, content, tool_calls =>
    { events := [AgentEvent.error e.render], content := content
    , tool_calls := tool_calls, aborted := true }

/-- AgentEvent::ToolResult events yielded after execute_all in
Agent::stream (note the source binds the event's name field to the
result's tool_call_id). -/
def tool_result_events (results : List MessageContent) : List AgentEvent :=
  results.filterMap (fun r =>
    match r with
    | MessageContent.toolResult tool_call_id res _ =>
      some (AgentEvent.toolResult tool_call_id res)
    | _ => none)

/-- Agent::stream from src/agent/agent_loop.rs: the outer while-loop of
the generator, fuel-based like run_loop. Each iteration yields
MessageStart, opens the LLM stream (on failure yields a terminal Error
event and ends the generator), consumes it through
process_stream_events (on an aborted turn the generator ends without
persisting the partial assistant message), then persists the assistant
message, stops if no tool calls were collected, otherwise executes
them, yields their ToolResult events, persists the Tool message and
continues. Returns all yielded events and the final session. -/
def stream_loop (parse : String → Option Json) (llm : LLMStreamAdapter)
    (reg : ToolRegistry) (config : AgentConfig) :
    Nat → Session → Nat → List AgentEvent × Session
  | 0, s, _ => ([], s)
  | steps_left + 1, s, fresh =>
    match llm (build_llm_input config reg s) with
    | Except.error e =>
      ([AgentEvent.messageStart MessageRole.assistant,
        AgentEvent.error e.render], s)
    | Except.ok events =>
      let turn := process_stream_events parse events [] []
      let evs := AgentEvent.messageStart MessageRole.assistant :: turn.events
      if turn.aborted then
        (evs, s)
      else
        let assistant_msg :=
          Message.new_assistant (toString fresh) fresh turn.content
        let msg_id := assistant_msg.id
        let s := s.add_message assistant_msg
        if turn.tool_calls.isEmpty then
          (evs, s)
        else
          let ctx : ExecutionContext :=
            { session_id := s.id, message_id := msg_id }
          let results := ToolExecutor.execute_all reg turn.tool_calls ctx
          let s := s.add_message
            (Message.new_tool_result (toString (fresh + 1)) (fresh + 1) results)
          let rest := stream_loop parse llm reg config steps_left s (fresh + 2)
          (evs ++ tool_result_events results ++ rest.1, rest.2)

/-- Agent::stream: the generator runs its outer loop with the config's
step budget. -/
def Agent.stream (parse : String → Option Json) (llm : LLMStreamAdapter)
    (reg : ToolRegistry) (config : AgentConfig) (s : Session) (fresh : Nat) :
    List AgentEvent × Session :=
  stream_loop parse llm reg config config.max_steps s fresh

/-- MCPError from src/mcp/client.rs. -/
inductive MCPError where
  | connectionError (msg : String)
  | protocolError (msg : String)
  | toolNotFound (name : String)
  | executionError (msg : String)
  | timeout
  | httpError (msg : String)
deriving DecidableEq, Repr

/-- MCPClient::create_initialize_request from src/mcp/client.rs: the
initialize envelope with its id hard-coded to the literal 1. -/
def create_initialize_request : Json :=
  Json.obj
    [ ("jsonrpc", Json.str "2.0")
    , ("id", Json.num 1)
    , ("method", Json.str "initialize")
    , ("params", Json.obj
        [ ("protocolVersion", Json.str "2024-11-05")
        , ("capabilities", Json.obj [])
        , ("clientInfo", Json.obj
            [ ("name", Json.str "simple-agent")
            , ("version", Json.str "0.1.0") ]) ]) ]

/-- MCPClient::create_json_rpc_request from src/mcp/client.rs: the id
is message_id.fetch_add(1), i.e. the current counter value, and the
counter is incremented. Returns the envelope and the new counter. -/
def create_json_rpc_request (message_id : Nat) (method : String)
    (params : Json) : Json × Nat :=
  ( Json.obj
      [ ("jsonrpc", Json.str "2.0")
      , ("id", Json.num (Int.ofNat message_id))
      , ("method", Json.str method)
      , ("params", params) ]
  , message_id + 1 )

/-- Initial value of the message_id counter: AtomicU64::new(0) in
MCPClientBuilder::build. -/
def initial_message_id : Nat := 0

/-- Extracts the id field of a JSON-RPC envelope, when it is a number. -/
def json_request_id (j : Json) : Option Int :=
  match j with
  | Json.obj fields =>
    match fields.find? (fun p => p.1 == "id") with
    | some (_, Json.num i) => some i
    | _ => none
  | _ => none

/-- The counter-generated requests of one session after initialize: for
each (method, params) pair a create_json_rpc_request call, threading
the counter. -/
def counter_requests : List (String × Json) → Nat → List Json
  | [], _ => []
  | (method, params) :: rest, counter =>
    let r := create_json_rpc_request counter method params
    r.1 :: counter_requests rest r.2

/-- All JSON-RPC requests sent in one session: the initialize request
(sent by connect with its hard-coded id) followed by the
counter-generated tools/list and tools/call requests, the counter
starting at initial_message_id. -/
def session_requests (reqs : List (String × Json)) : List Json :=
  create_initialize_request :: counter_requests reqs initial_message_id

/-- The ids of all requests sent in one session. -/
def session_request_ids (reqs : List (String × Json)) : List Int :=
  (session_requests reqs).filterMap json_request_id

/-- One attempted read_line on the child's stdout inside
MCPClient::read_json_response: either a line (possibly empty, an EOF
read yields the empty line) or an I/O error. -/
inductive ReadOutcome where
  | line (s : String)
  | fail (e : String)
deriving DecidableEq, Repr

/-- Whitespace recognized by the trim step, modelling str::trim for the
ASCII whitespace that the protocol lines contain. -/
def is_trim_whitespace (c : Char) : Bool :=
  c == ' ' || c == '\t' || c == '\n' || c == '\r'

/-- Model of the Rust standard library's str::trim: drop whitespace
from both ends of the character sequence. -/
def rust_trim (s : String) : String :=
  String.mk
    (((s.data.dropWhile is_trim_whitespace).reverse.dropWhile
        is_trim_whitespace).reverse)

/-- MCPClient::read_json_response from src/mcp/client.rs, with the
blocking reads made explicit as a finite list of outcomes. The loop
trims each line, skips empty lines, skips lines that fail to parse as
JSON, and returns the first parsed JSON value (the source re-serializes
and re-parses the value, which is the identity on it). A read error
makes the spawned task return Err, which the caller's
if-let-Ok-Some does not match, so the loop silently continues. The
result none means the loop consumed every listed outcome without
returning (in the source it would keep blocking on the next read). -/
def read_json_response (parse : String → Option Json) :
    List ReadOutcome → Option Json
  | [] => none
  | ReadOutcome.fail _ :: rest => read_json_response parse rest
  | ReadOutcome.line l :: rest =>
    let trimmed := rust_trim l
    if trimmed == "" then read_json_response parse rest
    else
      match parse trimmed with
      | some j => some j
      | none => read_json_response parse rest

/-- Result of one write_all on the child's stdin. -/
inductive WriteOutcome where
  | ok
  | fail (e : String)
deriving DecidableEq, Repr

/-- MCPClient::send_message_stdio from src/mcp/client.rs, with the pipe
writes made explicit: serialization of a serde_json::Value cannot fail,
a missing stdin handle is "Not connected", then the message bytes and
the trailing newline are written, each write error being surfaced as a
ConnectionError. -/
def send_message_stdio_model (stdin_connected : Bool)
    (write_message : WriteOutcome) (write_newline : WriteOutcome) :
    Except MCPError Unit :=
  if stdin_connected then
    match write_message with
    | WriteOutcome.fail e =>
      Except.error (MCPError.connectionError ("Failed to write to stdin: " ++ e))
    | WriteOutcome.ok =>
      match write_newline with
      | WriteOutcome.fail e =>
        Except.error (MCPError.connectionError ("Failed to write newline: " ++ e))
      | WriteOutcome.ok => Except.ok ()
  else Except.error (MCPError.connectionError "Not connected")

/-- Ids of the ToolCall blocks of a message. -/
def tool_call_ids (m : Message) : List String :=
  m.content.filterMap (fun c =>
    match c with
    | MessageContent.toolCall id _ _ => some id
    | _ => none)

/-- Ids referenced by the ToolResult blocks of a message. -/
def tool_result_ids (m : Message) : List String :=
  m.content.filterMap (fun c =>
    match c with
    | MessageContent.toolResult id _ _ => some id
    | _ => none)

/-- The specified correlation invariant on a message log: every
Tool-role message immediately follows an Assistant message and each of
its ToolResult.tool_call_id values references a ToolCall.id present in
that Assistant message. -/
def tool_results_match_prev_assistant : List Message → Bool
  | prev :: m :: rest =>
    (if m.role == MessageRole.tool then
      prev.role == MessageRole.assistant &&
        (tool_result_ids m).all (fun id => (tool_call_ids prev).contains id)
     else true) &&
    tool_results_match_prev_assistant (m :: rest)
  | _ => true

/- Concrete fixtures used to instantiate the theorems below. -/

/-- Empty tool registry. -/
def reg_empty : ToolRegistry := { tools := [] }

/-- A concrete execution context. -/
def ctx_a : ExecutionContext := { session_id := "s-a", message_id := "m-a" }

/-- A second, different execution context. -/
def ctx_b : ExecutionContext := { session_id := "s-b", message_id := "m-b" }

/-- A fresh session, as Session::with_default_model produces it. -/
def session_fresh : Session :=
  Session.new_session "session-0" ModelConfig.default_config ""

/-- Agent configuration with a step budget of 3. -/
def config_three_steps : AgentConfig :=
  { model := "gpt-4o", system_prompt := "", max_steps := 3, max_tokens := 4096 }

/-- Agent configuration with a step budget of 1. -/
def config_one_step : AgentConfig :=
  { model := "gpt-4o", system_prompt := "", max_steps := 1, max_tokens := 4096 }

/-- A blocking adapter stub that always fails. -/
def llm_always_fails : LLMAdapter :=
  fun _ => Except.error (LLMError.apiError "boom")

/-- The LLMOutput of the stub that always requests exactly one tool
call. -/
def one_call_output : LLMOutput :=
  { content := [MessageContent.toolCall "call-1" "echo" Json.null]
  , finish_reason := FinishReason.toolCalls
  , usage := { input_tokens := 0, output_tokens := 0 } }

/-- A blocking adapter stub that always returns exactly one tool call. -/
def llm_one_call : LLMAdapter :=
  fun _ => Except.ok one_call_output

/-- A streaming adapter stub whose single turn starts and completes one
tool call and then finishes. -/
def stream_one_completed_call : LLMStreamAdapter :=
  fun _ => Except.ok
    [ Except.ok (LLMEvent.toolCallStart "c1" "t")
    , Except.ok (LLMEvent.toolCallEnd "c1")
    , Except.ok (LLMEvent.finish FinishReason.toolCalls
        { input_tokens := 0, output_tokens := 0 }) ]

/-- A streaming adapter stub that fails to open the stream. -/
def stream_fails_to_open : LLMStreamAdapter :=
  fun _ => Except.error (LLMError.apiError "down")

/-- A streaming adapter stub that yields one text delta and then fails
mid-stream. -/
def stream_fails_midway : LLMStreamAdapter :=
  fun _ => Except.ok
    [ Except.ok (LLMEvent.textDelta "hel")
    , Except.error (LLMError.networkError "reset") ]

/-- A JSON parser stub that recognizes nothing. -/
def parse_nothing : String → Option Json := fun _ => none

/-- A JSON parser stub that recognizes exactly the string RESPONSE. -/
def parse_response_marker : String → Option Json :=
  fun s => if s == "RESPONSE" then some (Json.str "ok") else none

/-- Role pattern appended to the log by n batch-loop iterations that
each request tool calls: an Assistant message then a Tool message, n
times over. -/
def assistant_tool_roles : Nat → List MessageRole
  | 0 => []
  | n + 1 =>
    MessageRole.assistant :: MessageRole.tool :: assistant_tool_roles n

/-- Helper: ToolExecutor.execute always produces a toolResult block,
whatever the call and the registry contents. -/
lemma execute_shape (reg : ToolRegistry) (call : MessageContent)
    (ctx : ExecutionContext) :
    ∃ id res err, ToolExecutor.execute reg call ctx =
      MessageContent.toolResult id res err := by
  cases call with
  | text t =>
    exact ⟨"", "Invalid tool call content", some true, rfl⟩
  | toolResult a b c =>
    exact ⟨"", "Invalid tool call content", some true, rfl⟩
  | toolCall id name args =>
    cases hget : reg.get name with
    | none =>
      exact ⟨id, "Tool not found: " ++ name, some true,
        by simp only [ToolExecutor.execute, hget]⟩
    | some tool =>
      cases hex : tool.execute args with
      | ok result =>
        exact ⟨id, result.output, result.error.map (fun _ => true),
          by simp only [ToolExecutor.execute, hget, hex]⟩
      | error err =>
        exact ⟨id, err.render, some true,
          by simp only [ToolExecutor.execute, hget, hex]⟩

/-- Helper: on a toolCall block, the result of ToolExecutor.execute
carries the call's id as its tool_call_id, in every branch. -/
lemma execute_block_id (reg : ToolRegistry) (ctx : ExecutionContext)
    (c : MessageContent) (h : c.isToolCall = true) :
    (ToolExecutor.execute reg c ctx).block_id = c.block_id := by
  cases c with
  | text t => simp [MessageContent.isToolCall] at h
  | toolResult a b e => simp [MessageContent.isToolCall] at h
  | toolCall id name args =>
    cases hget : reg.get name with
    | none =>
      simp only [ToolExecutor.execute, hget, MessageContent.block_id]
    | some tool =>
      cases hex : tool.execute args with
      | ok result =>
        simp only [ToolExecutor.execute, hget, hex, MessageContent.block_id]
      | error err =>
        simp only [ToolExecutor.execute, hget, hex, MessageContent.block_id]

/-- C4: for every call and context, ToolExecutor::execute never raises:
it always returns a ToolResult content block; in particular a call
whose tool name is not in the registry yields an error-flagged result
whose text is exactly "Tool not found: " followed by the name. -/
theorem execute_total_and_missing_tool_message
    (reg : ToolRegistry) (call : MessageContent) (ctx : ExecutionContext) :
    (∃ id res err, ToolExecutor.execute reg call ctx =
      MessageContent.toolResult id res err) ∧
    (∀ id name args, call = MessageContent.toolCall id name args →
      reg.get name = none →
      ToolExecutor.execute reg call ctx =
        MessageContent.toolResult id ("Tool not found: " ++ name)
          (some true)) := by
  refine ⟨execute_shape reg call ctx, ?_⟩
  intro id name args hcall hget
  subst hcall
  simp only [ToolExecutor.execute, hget]

/-- C4 witness: a call to the missing tool nope against the empty
registry produces the error-flagged not-found result. -/
theorem execute_total_and_missing_tool_message_witness :
    ToolExecutor.execute reg_empty
      (MessageContent.toolCall "i-1" "nope" Json.null) ctx_a =
      MessageContent.toolResult "i-1" ("Tool not found: " ++ "nope")
        (some true) :=
  (execute_total_and_missing_tool_message reg_empty
    (MessageContent.toolCall "i-1" "nope" Json.null) ctx_a).2
    "i-1" "nope" Json.null rfl rfl

/-- C5: for a list of tool-call content blocks dispatched in one turn,
ToolExecutor::execute_all returns exactly as many results as calls, in
the order given: the i-th result's tool_call_id equals the i-th call's
id (stated as equality of the id projections of the two lists), and
every result is a ToolResult block even when calls fail. -/
theorem execute_all_count_order_ids
    (reg : ToolRegistry) (calls : List MessageContent)
    (ctx : ExecutionContext) (h : ∀ c ∈ calls, c.isToolCall = true) :
    (ToolExecutor.execute_all reg calls ctx).length = calls.length ∧
    (ToolExecutor.execute_all reg calls ctx).map MessageContent.block_id =
      calls.map MessageContent.block_id ∧
    (∀ r ∈ ToolExecutor.execute_all reg calls ctx,
      ∃ id res err, r = MessageContent.toolResult id res err) := by
  refine ⟨?_, ?_, ?_⟩
  · simp [ToolExecutor.execute_all]
  · unfold ToolExecutor.execute_all
    rw [List.map_map]
    apply List.map_congr_left
    intro c hc
    exact execute_block_id reg ctx c (h c hc)
  · intro r hr
    unfold ToolExecutor.execute_all at hr
    rcases List.mem_map.mp hr with ⟨c, _, hc⟩
    rcases execute_shape reg c ctx with ⟨id, res, err, he⟩
    exact ⟨id, res, err, by rw [← hc, he]⟩

/-- C5 witness: two tool calls (one for a missing tool) against the
empty registry give two results whose ids match pairwise. -/
theorem execute_all_count_order_ids_witness :
    (ToolExecutor.execute_all reg_empty
      [MessageContent.toolCall "a" "t1" Json.null,
       MessageContent.toolCall "b" "t2" Json.null] ctx_a).length = 2 ∧
    (ToolExecutor.execute_all reg_empty
      [MessageContent.toolCall "a" "t1" Json.null,
       MessageContent.toolCall "b" "t2" Json.null] ctx_a).map
        MessageContent.block_id = ["a", "b"] ∧
    (∀ r ∈ ToolExecutor.execute_all reg_empty
      [MessageContent.toolCall "a" "t1" Json.null,
       MessageContent.toolCall "b" "t2" Json.null] ctx_a,
      ∃ id res err, r = MessageContent.toolResult id res err) := by
  have h := execute_all_count_order_ids reg_empty
    [MessageContent.toolCall "a" "t1" Json.null,
     MessageContent.toolCall "b" "t2" Json.null] ctx_a
    (by
      intro c hc
      rcases List.mem_cons.mp hc with rfl | hc
      · rfl
      · rcases List.mem_cons.mp hc with rfl | hc
        · rfl
        · cases hc)
  exact ⟨h.1, by rw [h.2.1]; rfl, h.2.2⟩

/-- C10: ToolExecutor::execute (and execute_all) ignores the execution
context: for any two contexts and the same registry and call, the
results are identical. -/
theorem execute_independent_of_context
    (reg : ToolRegistry) (call : MessageContent)
    (calls : List MessageContent) (ctx1 ctx2 : ExecutionContext) :
    ToolExecutor.execute reg call ctx1 =
      ToolExecutor.execute reg call ctx2 ∧
    ToolExecutor.execute_all reg calls ctx1 =
      ToolExecutor.execute_all reg calls ctx2 :=
  ⟨rfl, rfl⟩

/-- C2 (evaluation at the failing input): when the model adapter fails
on the first step, Agent::run propagates the error with the ? operator,
so the assignment of Completed is skipped and the session status stays
Running; SessionStatus::Error is never assigned anywhere in the agent
code. -/
theorem run_error_leaves_status_running :
    (Agent.run llm_always_fails reg_empty config_three_steps session_fresh 0
      "hello").1.status = SessionStatus.running ∧
    (Agent.run llm_always_fails reg_empty config_three_steps session_fresh 0
      "hello").2 =
      Except.error (AgentError.llmError (LLMError.apiError "boom")) :=
  ⟨rfl, rfl⟩

/-- Helper for C3: under an adapter that always answers with exactly
one tool call, the batch loop consumes all its fuel, never errors, and
appends an Assistant/Tool message pair per iteration. -/
lemma run_loop_always_one_call (llm : LLMAdapter) (reg : ToolRegistry)
    (config : AgentConfig)
    (hllm : ∀ inp, ∃ out, llm inp = Except.ok out ∧
      (out.content.filter MessageContent.isToolCall).length = 1) :
    ∀ (n : Nat) (s : Session) (fresh : Nat),
      ∃ s' fresh',
        run_loop llm reg config n s fresh = (s', fresh', none) ∧
        s'.messages.map Message.role =
          s.messages.map Message.role ++ assistant_tool_roles n := by
  intro n
  induction n with
  | zero =>
    intro s fresh
    exact ⟨s, fresh, rfl, by simp [assistant_tool_roles]⟩
  | succ k ih =>
    intro s fresh
    obtain ⟨out, hout, hlen⟩ := hllm (build_llm_input config reg s)
    have hne : (out.content.filter MessageContent.isToolCall).isEmpty = false := by
      cases hfl : out.content.filter MessageContent.isToolCall with
      | nil => rw [hfl] at hlen; simp at hlen
      | cons hd tl => rfl
    obtain ⟨s', fresh', hrec, hroles⟩ := ih
      ((s.add_message
          (Message.new_assistant (toString fresh) fresh out.content)).add_message
        (Message.new_tool_result (toString (fresh + 1)) (fresh + 1)
          (ToolExecutor.execute_all reg
            (out.content.filter MessageContent.isToolCall)
            { session_id :=
                (s.add_message
                  (Message.new_assistant (toString fresh) fresh out.content)).id
            , message_id :=
                (Message.new_assistant (toString fresh) fresh out.content).id })))
      (fresh + 2)
    refine ⟨s', fresh', ?_, ?_⟩
    · simp only [run_loop, hout, hne, Bool.false_eq_true, if_false]
      exact hrec
    · rw [hroles]
      simp [Session.add_message, Message.new_assistant,
        Message.new_tool_result, assistant_tool_roles]

/-- C3: for an adapter that always returns exactly one tool call, a
batch run with a step budget of 3 on a fresh session terminates after
exactly 3 steps with Ok (no error for the exhausted budget) and a log
of 7 messages: one User message then three Assistant/Tool pairs. -/
theorem batch_run_exhausts_steps_without_error (llm : LLMAdapter)
    (reg : ToolRegistry) (config : AgentConfig) (s : Session) (fresh : Nat)
    (input : String) (hsteps : config.max_steps = 3)
    (hempty : s.messages = [])
    (hllm : ∀ inp, ∃ out, llm inp = Except.ok out ∧
      (out.content.filter MessageContent.isToolCall).length = 1) :
    ∃ msgs, (Agent.run llm reg config s fresh input).2 = Except.ok msgs ∧
      msgs.map Message.role =
        [MessageRole.user, MessageRole.assistant, MessageRole.tool,
         MessageRole.assistant, MessageRole.tool,
         MessageRole.assistant, MessageRole.tool] ∧
      msgs.length = 7 := by
  obtain ⟨s', fresh', hrun, hroles⟩ := run_loop_always_one_call llm reg config
    hllm config.max_steps
    { s.add_message (Message.new_user (toString fresh) fresh input) with
        status := SessionStatus.running }
    (fresh + 1)
  refine ⟨s'.messages, ?_, ?_, ?_⟩
  · simp only [Agent.run, hrun]
  · rw [hroles, hsteps]
    simp [Session.add_message, Message.new_user, hempty, assistant_tool_roles]
  · have : (s'.messages.map Message.role).length = 7 := by
      rw [hroles, hsteps]
      simp [Session.add_message, Message.new_user, hempty, assistant_tool_roles]
    simpa using this

/-- C3 witness: the concrete one-tool-call stub against the empty
registry, a fresh session and a budget of 3 steps. -/
theorem batch_run_exhausts_steps_without_error_witness :
    ∃ msgs,
      (Agent.run llm_one_call reg_empty config_three_steps session_fresh 0
        "go").2 = Except.ok msgs ∧
      msgs.map Message.role =
        [MessageRole.user, MessageRole.assistant, MessageRole.tool,
         MessageRole.assistant, MessageRole.tool,
         MessageRole.assistant, MessageRole.tool] ∧
      msgs.length = 7 :=
  batch_run_exhausts_steps_without_error llm_one_call reg_empty
    config_three_steps session_fresh 0 "go" rfl rfl
    (fun _ => ⟨one_call_output, rfl, rfl⟩)

/-- C1 (evaluation at the failing input): in a streaming run whose
single turn starts and completes one tool call, the ToolCallEnd arm
removes the completed ToolCall block from the content buffer, so the
persisted Assistant message has no ToolCall blocks while the following
Tool message carries a ToolResult for id c1: the specified
call/result correlation invariant is violated. -/
theorem streaming_breaks_tool_result_correlation :
    (Agent.stream parse_nothing stream_one_completed_call reg_empty
      config_one_step session_fresh 0).2.messages.map Message.role =
      [MessageRole.assistant, MessageRole.tool] ∧
    (Agent.stream parse_nothing stream_one_completed_call reg_empty
      config_one_step session_fresh 0).2.messages.map Message.content =
      [[], [MessageContent.toolResult "c1" ("Tool not found: " ++ "t")
        (some true)]] ∧
    tool_results_match_prev_assistant
      (Agent.stream parse_nothing stream_one_completed_call reg_empty
        config_one_step session_fresh 0).2.messages = false :=
  ⟨rfl, rfl, rfl⟩

/-- Helper for C9: a stream-level error after a prefix of well-formed
events makes the aggregator emit exactly the prefix's events followed
by one terminal Error event, and abort the turn. -/
lemma process_events_append_error (parse : String → Option Json)
    (oks : List LLMEvent) (e : LLMError)
    (rest : List (Except LLMError LLMEvent)) :
    ∀ (content tool_calls : List MessageContent),
      process_stream_events parse
        (oks.map Except.ok ++ Except.error e :: rest) content tool_calls =
      { events := (process_stream_events parse (oks.map Except.ok) content
            tool_calls).events ++ [AgentEvent.error e.render]
      , content := (process_stream_events parse (oks.map Except.ok) content
            tool_calls).content
      , tool_calls := (process_stream_events parse (oks.map Except.ok)
            content tool_calls).tool_calls
      , aborted := true } := by
  induction oks with
  | nil => intro content tool_calls; rfl
  | cons x oks ih =>
    intro content tool_calls
    cases x <;>
      simp only [List.map_cons, List.cons_append, process_stream_events,
        List.append_eq, ih, List.nil_append]

/-- C9: in streaming mode, when the adapter fails opening the stream or
mid-stream, the generator yields a terminal Error event as its last
event and ends, and the partially-built Assistant message for that turn
is not appended to the session (the session comes back unchanged). -/
theorem streaming_adapter_error_is_terminal (parse : String → Option Json)
    (llm : LLMStreamAdapter) (reg : ToolRegistry) (config : AgentConfig)
    (steps_left : Nat) (s : Session) (fresh : Nat) :
    (∀ e, llm (build_llm_input config reg s) = Except.error e →
      stream_loop parse llm reg config (steps_left + 1) s fresh =
        ([AgentEvent.messageStart MessageRole.assistant,
          AgentEvent.error e.render], s)) ∧
    (∀ (oks : List LLMEvent) (e : LLMError)
      (rest : List (Except LLMError LLMEvent)),
      llm (build_llm_input config reg s) =
        Except.ok (oks.map Except.ok ++ Except.error e :: rest) →
      stream_loop parse llm reg config (steps_left + 1) s fresh =
        (AgentEvent.messageStart MessageRole.assistant ::
          ((process_stream_events parse (oks.map Except.ok) [] []).events ++
            [AgentEvent.error e.render]), s)) := by
  constructor
  · intro e he
    simp only [stream_loop, he]
  · intro oks e rest he
    simp only [stream_loop, he, process_events_append_error, if_true]

/-- C9 witness: the open-failure stub and the mid-stream-failure stub
both end the run with a terminal Error event and leave the fresh
session untouched. -/
theorem streaming_adapter_error_is_terminal_witness :
    stream_loop parse_nothing stream_fails_to_open reg_empty config_one_step
      (0 + 1) session_fresh 0 =
      ([AgentEvent.messageStart MessageRole.assistant,
        AgentEvent.error (LLMError.apiError "down").render], session_fresh) ∧
    stream_loop parse_nothing stream_fails_midway reg_empty config_one_step
      (0 + 1) session_fresh 0 =
      (AgentEvent.messageStart MessageRole.assistant ::
        ((process_stream_events parse_nothing
            ([LLMEvent.textDelta "hel"].map Except.ok) [] []).events ++
          [AgentEvent.error (LLMError.networkError "reset").render]),
        session_fresh) := by
  constructor
  · exact (streaming_adapter_error_is_terminal parse_nothing
      stream_fails_to_open reg_empty config_one_step 0 session_fresh 0).1
      (LLMError.apiError "down") rfl
  · exact (streaming_adapter_error_is_terminal parse_nothing
      stream_fails_midway reg_empty config_one_step 0 session_fresh 0).2
      [LLMEvent.textDelta "hel"] (LLMError.networkError "reset") [] rfl

/-- Helper: the id field of a counter-generated JSON-RPC envelope is
the counter value passed to create_json_rpc_request. -/
lemma json_rpc_request_id_eq (c : Nat) (method : String) (params : Json) :
    json_request_id (create_json_rpc_request c method params).1 =
      some (Int.ofNat c) := rfl

/-- Helper: the id field of the initialize envelope is the literal 1. -/
lemma initialize_request_id_eq :
    json_request_id create_initialize_request = some 1 := rfl

/-- Helper: the counter-generated requests starting at counter c carry
the consecutive ids c, c+1, ..., one per request. -/
lemma counter_requests_ids (reqs : List (String × Json)) :
    ∀ c, (counter_requests reqs c).filterMap json_request_id =
      (List.range' c reqs.length).map Int.ofNat := by
  induction reqs with
  | nil => intro c; rfl
  | cons hd tl ih =>
    intro c
    cases hd with
    | mk method params =>
      rw [counter_requests,
        List.filterMap_cons_some (json_rpc_request_id_eq c method params)]
      simp only [List.length_cons, List.range'_succ, List.map_cons]
      have h2 : (create_json_rpc_request c method params).2 = c + 1 := rfl
      rw [h2, ih (c + 1)]

/-- C6 counterexample: a session sending initialize followed by two
counter-generated requests uses the ids 1, 0, 1 in that order — the
hard-coded initialize id 1 collides with the second counter-generated
id, so the session's request ids are neither unique nor increasing. -/
theorem session_request_ids_counterexample :
    session_request_ids
      [("tools/list", Json.obj []), ("tools/list", Json.obj [])] =
      [1, 0, 1] ∧
    ¬ (session_request_ids
      [("tools/list", Json.obj []), ("tools/list", Json.obj [])]).Nodup ∧
    ¬ List.Pairwise (· < ·) (session_request_ids
      [("tools/list", Json.obj []), ("tools/list", Json.obj [])]) := by
  have h : session_request_ids
      [("tools/list", Json.obj []), ("tools/list", Json.obj [])] =
      [1, 0, 1] := rfl
  refine ⟨h, ?_, ?_⟩ <;> rw [h] <;> decide

/-- C6 amended: the ids of the counter-generated tools/list and
tools/call requests start at 0 and are strictly increasing, hence
unique among themselves; the initialize request carries the fixed id 1,
so a full session's id sequence is 1, 0, 1, 2, and so on. -/
theorem session_request_ids_amended (reqs : List (String × Json)) :
    session_request_ids reqs =
      1 :: (List.range' 0 reqs.length).map Int.ofNat ∧
    List.Pairwise (· < ·)
      ((List.range' 0 reqs.length).map (Int.ofNat : Nat → Int)) ∧
    ((List.range' 0 reqs.length).map (Int.ofNat : Nat → Int)).Nodup := by
  have hmono : List.Pairwise (· < ·)
      ((List.range' 0 reqs.length).map (Int.ofNat : Nat → Int)) :=
    List.Pairwise.map _ (fun a b h => Int.ofNat_lt.mpr h)
      (List.pairwise_lt_range' 0 reqs.length)
  refine ⟨?_, hmono, hmono.imp (fun h => ne_of_lt h)⟩
  unfold session_request_ids session_requests
  rw [List.filterMap_cons_some initialize_request_id_eq,
    counter_requests_ids reqs initial_message_id]
  rfl

/-- C7: for a process-transport read sequence made of two lines that do
not parse as JSON followed by one line holding a valid JSON document,
the read path returns the parsed document, discarding the two
diagnostic lines instead of treating them as protocol errors. -/
theorem read_skips_diagnostic_lines (parse : String → Option Json)
    (l1 l2 l3 : String) (v : Json)
    (h1 : parse (rust_trim l1) = none) (h2 : parse (rust_trim l2) = none)
    (h3 : (rust_trim l3 == "") = false)
    (h4 : parse (rust_trim l3) = some v) :
    read_json_response parse
      [ReadOutcome.line l1, ReadOutcome.line l2, ReadOutcome.line l3] =
      some v := by
  by_cases he1 : (rust_trim l1 == "") = true <;>
    by_cases he2 : (rust_trim l2 == "") = true <;>
      simp [read_json_response, he1, he2, h1, h2, h3, h4]

/-- C7 witness: one plain-text log line and one whitespace line before
the recognized response line. -/
theorem read_skips_diagnostic_lines_witness :
    read_json_response parse_response_marker
      [ReadOutcome.line "log line one", ReadOutcome.line "  ",
       ReadOutcome.line "RESPONSE"] = some (Json.str "ok") :=
  read_skips_diagnostic_lines parse_response_marker "log line one" "  "
    "RESPONSE" (Json.str "ok") rfl rfl rfl rfl

/-- C8 counterexample: with a dead child process the next read attempt
yields an I/O error outcome (or an EOF read, which produces an empty
line), yet read_json_response surfaces no error: its codomain has no
error case because the source loop discards the Err value built for a
failed read and keeps looping, so the model returns none (still
waiting) instead of an I/O error. -/
theorem dead_child_read_not_surfaced :
    read_json_response parse_nothing [ReadOutcome.fail "broken pipe"] =
      none ∧
    read_json_response parse_nothing [ReadOutcome.line ""] = none :=
  ⟨rfl, rfl⟩

/-- C8 amended: a dead child process surfaces as an I/O error on the
next write (mapped to ConnectionError by send_message_stdio), while the
read path never surfaces a read failure: the loop behaves on a failed
read exactly as on a skipped line and retries. -/
theorem dead_child_write_errors_read_retries (e : String)
    (w2 : WriteOutcome) (parse : String → Option Json)
    (rest : List ReadOutcome) :
    send_message_stdio_model true (WriteOutcome.fail e) w2 =
      Except.error
        (MCPError.connectionError ("Failed to write to stdin: " ++ e)) ∧
    read_json_response parse (ReadOutcome.fail e :: rest) =
      read_json_response parse rest :=
  ⟨rfl, rfl⟩

end SimpleAgent
